import Mathlib

/-!
Verification development for the FinEdu news crawler
(`src/news_crawler.py`).

The script is a sequential batch-ETL pipeline: it collects article URLs
from a listing page (`get_news_urls`), parses each article page into a
record (`parse_news`), inserts novel records into a MySQL table
(`save_news_to_mysql`), prunes rows older than a retention window
(`clean_old_news`), and repeats in an hourly loop (`main`).

We embed the pipeline shallowly: the parsed HTML page is a structure of
the selector results the code reads, the database is a list of rows, the
transaction discipline is modelled by returning either the committed
store (commit) or the untouched input store (rollback), and failures of
external calls are injected as explicit `Option String` parameters
(`none` = the call succeeds, `some e` = the call raises an exception
whose text is `e`).  Log output is modelled as a list of message strings.

Strings are processed on their underlying `List Char`, and Python string
primitives (`str.strip`, `str.replace`, `str.startswith`, `' '.join`)
are given explicit list-level definitions so that every theorem can be
evaluated by the kernel.
-/

/-- Numeric value of a digit character (Python `int` on a matched digit). -/
def digitVal (c : Char) : Nat := c.toNat - 48

/-- The character for a digit value (used by `strftime` zero-padding). -/
def digitChar (n : Nat) : Char := Char.ofNat (48 + n)

/-- ASCII decimal digit test, the model of the regex class `\d`. -/
def isDigitB (c : Char) : Bool := 48 ≤ c.toNat && c.toNat ≤ 57

/-- Whitespace class of Python's `str.strip()` and of the regex `\s`
(space, tab, newline, carriage return, vertical tab, form feed). -/
def isPySpace (c : Char) : Bool :=
  c == ' ' || c == '\t' || c == '\n' || c == '\r' || c == '\x0b' || c == '\x0c'

/-- Python `str.strip()` on a character list: drop whitespace from both ends. -/
def pyStripL (l : List Char) : List Char :=
  ((l.dropWhile isPySpace).reverse.dropWhile isPySpace).reverse

/-- Python `str.strip()`. -/
def pyStrip (s : String) : String := String.mk (pyStripL s.data)

/-- Python `str.replace("송고시간", "")`: delete every occurrence of the
four-character label, scanning left to right. -/
def stripLabelL : List Char → List Char
  | '송' :: '고' :: '시' :: '간' :: rest => stripLabelL rest
  | c :: rest => c :: stripLabelL rest
  | [] => []

/-- Python `str.replace("송고시간", "")` on strings. -/
def stripLabelStr (s : String) : String := String.mk (stripLabelL s.data)

/-- Does the second list start with the first (model of Python
`str.startswith` at character level)? -/
def listStarts : List Char → List Char → Bool
  | [], _ => true
  | _ :: _, [] => false
  | p :: ps, c :: cs => p == c && listStarts ps cs

/-- Python `s.startswith(p)`. -/
def pyStartsWith (s p : String) : Bool := listStarts p.data s.data

/-- Lexicographic comparison of character lists; on the canonical
zero-padded `YYYY-MM-DD HH:MM:SS` strings this coincides with MySQL's
`DATETIME` ordering used by the pruning `DELETE`. -/
def charListLt : List Char → List Char → Bool
  | [], [] => false
  | [], _ :: _ => true
  | _ :: _, [] => false
  | a :: as, b :: bs => if a < b then true else if b < a then false else charListLt as bs

/-- A wall-clock timestamp as the five fields `strptime` extracts for the
format `%Y-%m-%d %H:%M` plus seconds (which that format leaves at zero;
`NOW()` on the database side does carry seconds). -/
structure DTime where
  year : Nat
  month : Nat
  day : Nat
  hour : Nat
  minute : Nat
  sec : Nat
deriving DecidableEq

/-- Gregorian leap-year test. -/
def isLeap (y : Nat) : Bool := y % 4 == 0 && (y % 100 != 0 || y % 400 == 0)

/-- Number of days in a month, as used by `datetime`'s validity check. -/
def daysInMonth (y m : Nat) : Nat :=
  if m == 2 then (if isLeap y then 29 else 28)
  else if m == 4 || m == 6 || m == 9 || m == 11 then 30
  else 31

/-- Read exactly two decimal digits. -/
def take2D : List Char → Option (Nat × List Char)
  | a :: b :: rest =>
    if isDigitB a && isDigitB b then some (10 * digitVal a + digitVal b, rest) else none
  | _ => none

/-- Read exactly four decimal digits: CPython's `_strptime` regex for
`%Y` is `\d\d\d\d`. -/
def take4D : List Char → Option (Nat × List Char)
  | a :: b :: c :: d :: rest =>
    if isDigitB a && isDigitB b && isDigitB c && isDigitB d then
      some (1000 * digitVal a + 100 * digitVal b + 10 * digitVal c + digitVal d, rest)
    else none
  | _ => none

/-- Consume one expected literal character. -/
def expectChar (c : Char) : List Char → Option (List Char)
  | x :: rest => if x == c then some rest else none
  | [] => none

/-- CPython `%m` (`1[0-2]|0[1-9]|[1-9]`): one or two digits, value 1–12.
Two digits are consumed whenever two digits are present (the regex
cannot backtrack into a digit where the format then requires `-`). -/
def parseMM : List Char → Option (Nat × List Char)
  | a :: b :: rest =>
    if isDigitB a && isDigitB b then
      let v := 10 * digitVal a + digitVal b
      if 1 ≤ v && v ≤ 12 then some (v, rest) else none
    else if isDigitB a && 1 ≤ digitVal a then some (digitVal a, b :: rest)
    else none
  | [a] => if isDigitB a && 1 ≤ digitVal a then some (digitVal a, []) else none
  | [] => none

/-- CPython `%d` (`3[01]|[12]\d|0[1-9]|[1-9]| [1-9]`): one or two digits
with value 1–31, or a space followed by a nonzero digit. -/
def parseDD : List Char → Option (Nat × List Char)
  | a :: b :: rest =>
    if a == ' ' then
      if isDigitB b && 1 ≤ digitVal b then some (digitVal b, rest) else none
    else if isDigitB a && isDigitB b then
      let v := 10 * digitVal a + digitVal b
      if 1 ≤ v && v ≤ 31 then some (v, rest) else none
    else if isDigitB a && 1 ≤ digitVal a then some (digitVal a, b :: rest)
    else none
  | [a] => if isDigitB a && 1 ≤ digitVal a then some (digitVal a, []) else none
  | [] => none

/-- CPython `%H` (`2[0-3]|[0-1]\d|\d`): one or two digits, value 0–23. -/
def parseHH : List Char → Option (Nat × List Char)
  | a :: b :: rest =>
    if isDigitB a && isDigitB b then
      let v := 10 * digitVal a + digitVal b
      if v ≤ 23 then some (v, rest) else none
    else if isDigitB a then some (digitVal a, b :: rest)
    else none
  | [a] => if isDigitB a then some (digitVal a, []) else none
  | [] => none

/-- The literal space of the format becomes `\s+` in `_strptime`:
at least one whitespace character, consumed greedily. -/
def parseWs : List Char → Option (List Char)
  | c :: rest => if isPySpace c then some (rest.dropWhile isPySpace) else none
  | [] => none

/-- CPython `%M` (`[0-5]\d|\d`) in final position: the whole remaining
input must be one digit, or two digits whose first is at most 5
(`strptime` raises on any unconverted trailing data). -/
def parseMinEnd : List Char → Option Nat
  | [a] => if isDigitB a then some (digitVal a) else none
  | [a, b] =>
    if isDigitB a && isDigitB b && digitVal a ≤ 5 then
      some (10 * digitVal a + digitVal b)
    else none
  | _ => none

/-- Model of `datetime.strptime(s, "%Y-%m-%d %H:%M")`: the `_strptime`
regex match for that format followed by `datetime`'s validity check
(year at least 1, day within the month).  Returns `none` exactly when
the Python call raises `ValueError`. -/
def strptimeYmdHM (s : String) : Option DTime :=
  match take4D s.data with
  | none => none
  | some (y, r1) =>
    match expectChar '-' r1 with
    | none => none
    | some r2 =>
      match parseMM r2 with
      | none => none
      | some (mo, r3) =>
        match expectChar '-' r3 with
        | none => none
        | some r4 =>
          match parseDD r4 with
          | none => none
          | some (d, r5) =>
            match parseWs r5 with
            | none => none
            | some r6 =>
              match parseHH r6 with
              | none => none
              | some (h, r7) =>
                match expectChar ':' r7 with
                | none => none
                | some r8 =>
                  match parseMinEnd r8 with
                  | none => none
                  | some mi =>
                    if 1 ≤ y && 1 ≤ d && d ≤ daysInMonth y mo then
                      some ⟨y, mo, d, h, mi, 0⟩
                    else none

/-- Two-digit zero padding of `strftime`. -/
def pad2L (n : Nat) : List Char := [digitChar (n / 10 % 10), digitChar (n % 10)]

/-- Four-digit zero padding of `strftime` for `%Y`. -/
def pad4L (n : Nat) : List Char :=
  [digitChar (n / 1000 % 10), digitChar (n / 100 % 10), digitChar (n / 10 % 10),
   digitChar (n % 10)]

/-- Model of `.strftime('%Y-%m-%d %H:%M:%S')` at character level.  The
year is zero-padded to four digits; CPython's `%Y` padding is
platform-dependent for years below 1000, a case no news timestamp
reaches. -/
def dtToStringL (t : DTime) : List Char :=
  pad4L t.year ++ ['-'] ++ pad2L t.month ++ ['-'] ++ pad2L t.day ++ [' '] ++
    pad2L t.hour ++ [':'] ++ pad2L t.minute ++ [':'] ++ pad2L t.sec

/-- Model of `.strftime('%Y-%m-%d %H:%M:%S')`. -/
def dtToString (t : DTime) : String := String.mk (dtToStringL t)

/-- Modelled from the spec: the "exact pattern `YYYY-MM-DD HH:MM`" of
§4.2 step 7 — sixteen characters, every field zero-padded to fixed
width, naming a valid calendar timestamp.  Used only to compare the
spec's wording with the behaviour of the source's `strptime` call. -/
def specExactPattern (s : String) : Bool :=
  match s.data with
  | [y1, y2, y3, y4, s1, m1, m2, s2, d1, d2, s3, h1, h2, s4, n1, n2] =>
    isDigitB y1 && isDigitB y2 && isDigitB y3 && isDigitB y4 &&
    s1 == '-' && isDigitB m1 && isDigitB m2 && s2 == '-' &&
    isDigitB d1 && isDigitB d2 && s3 == ' ' &&
    isDigitB h1 && isDigitB h2 && s4 == ':' && isDigitB n1 && isDigitB n2 &&
    (1 ≤ 1000 * digitVal y1 + 100 * digitVal y2 + 10 * digitVal y3 + digitVal y4) &&
    (1 ≤ 10 * digitVal m1 + digitVal m2) && (10 * digitVal m1 + digitVal m2 ≤ 12) &&
    (1 ≤ 10 * digitVal d1 + digitVal d2) &&
    (10 * digitVal d1 + digitVal d2 ≤
      daysInMonth (1000 * digitVal y1 + 100 * digitVal y2 + 10 * digitVal y3 + digitVal y4)
        (10 * digitVal m1 + digitVal m2)) &&
    (10 * digitVal h1 + digitVal h2 ≤ 23) && (10 * digitVal n1 + digitVal n2 ≤ 59)
  | _ => false

/-!
## The article page and `parse_news`

A fetched article page is reduced to the three selector results the code
reads: the text of `div.content03 header.title-article01 h1.tit` (or
`none` when the selector matches nothing), the texts of the
`article.story-news.article p` elements, and the text of
`p.update-time`.  A transport failure of `requests.get` is an
`Except.error`.
-/

/-- Selector results of an article page. -/
structure Page where
  titleElem : Option String
  contentParas : List String
  updateTimeElem : Option String
deriving DecidableEq

/-- The record `parse_news` builds (`news_data` in the source). -/
structure ArticleRecord where
  id : String
  title : String
  content : String
  original_url : String
  publish_time : String
deriving DecidableEq

/-- Python `' '.join(l)`. -/
def joinSpace : List String → String
  | [] => ""
  | [s] => s
  | s :: rest => s ++ " " ++ joinSpace rest

/-- The `content` expression of line 94 of the source: strip each
paragraph text, keep the truthy (non-empty) ones, join with one space. -/
def buildContent (paras : List String) : String :=
  joinSpace ((paras.map pyStrip).filter (fun s => s ≠ ""))

/-- Log line of `parse_news`'s outer `except` handler. -/
def parseFailMsg (url e : String) : String :=
  "해당 URL의 뉴스를 파싱하는데 실패했습니다: " ++ url ++ ": " ++ e

/-- Log line of the date handler (`logger.error` before re-raising). -/
def dateErrMsg (ds : String) : String := "날짜 파싱 오류: " ++ ds

/-- Log line of `parse_news` on success. -/
def parseOkMsg (title : String) : String :=
  "뉴스를 파싱하는데 성공했습니다!: " ++ title

/-- Exception text standing for the `ValueError` that
`datetime.strptime` raises on a mismatch. -/
def strptimeErr (ds : String) : String :=
  "time data " ++ ds ++ " does not match format"

/-- The preprocessing of the publish-time text before `strptime`
(lines 104 and 107 of the source): strip, delete the label, strip. -/
def processDate (raw : String) : String := pyStrip (stripLabelStr (pyStrip raw))

/-- Model of `parse_news(url)`: `uuid` is the fresh `uuid.uuid4()`
value, `fetch` the outcome of `requests.get` reduced to selector
results.  Returns the record (or `none`) together with the log lines
emitted.  Mirrors lines 76–130 of the source. -/
def parse_news (uuid url : String) (fetch : Except String Page) :
    Option ArticleRecord × List String :=
  match fetch with
  | .error e => (none, [parseFailMsg url e])
  | .ok page =>
    match page.titleElem with
    | none => (none, [parseFailMsg url "Title not found"])
    | some t0 =>
      let title := pyStrip t0
      if page.contentParas.isEmpty then
        (none, [parseFailMsg url "콘텐트를 찾을 수 없습니다"])
      else
        let content := buildContent page.contentParas
        if content = "" then (none, [parseFailMsg url "콘텐트가 비어있습니다"])
        else
          match page.updateTimeElem with
          | none => (none, [parseFailMsg url "발행일자를 찾을 수 없습니다"])
          | some d0 =>
            let date_str := processDate d0
            match strptimeYmdHM date_str with
            | none =>
              (none, [dateErrMsg date_str, parseFailMsg url (strptimeErr date_str)])
            | some dt =>
              (some ⟨uuid, title, content, url, dtToString dt⟩, [parseOkMsg title])

/-!
## The store: `save_news_to_mysql` and `clean_old_news`

The `news` table is a list of rows; the committed store is the function
result.  A normal Python return is `Except.ok`; `Except.error` would be
an exception escaping to the caller (both functions catch `Exception`,
so every branch below is `.ok` — which is itself the fact claim C5 is
about).  Query failures are injected: `cerr`/`ierr`/`cmerr` make the
existence check, the `INSERT` and the `COMMIT` raise with the given
text, and rollback restores the input store.
-/

/-- A row of the `news` table. -/
structure NewsRow where
  news_title : String
  news_content : String
  original_url : String
  crawl_time : String
  publish_time : String
deriving DecidableEq

/-- The `SELECT COUNT(*) FROM news WHERE original_url = %s` query. -/
def newsCount (db : List NewsRow) (u : String) : Nat :=
  (db.filter (fun r => r.original_url == u)).length

/-- Log line of `save_news_to_mysql` when the URL already exists. -/
def dupMsg (title : String) : String := "이미 저장된 뉴스입니다: " ++ title

/-- Log line of `save_news_to_mysql` on success. -/
def saveOkMsg (title : String) : String :=
  "뉴스를 MySQL DB에 저장하는데 성공했습니다: " ++ title

/-- Log line of `save_news_to_mysql`'s `except` handler. -/
def saveFailMsg (e : String) : String :=
  "MySQL DB에 뉴스를 저장하는데 실패했습니다: " ++ e

/-- The row the `INSERT` statement writes. -/
def mkRow (nd : ArticleRecord) (now : String) : NewsRow :=
  ⟨nd.title, nd.content, nd.original_url, now, nd.publish_time⟩

/-- Model of `save_news_to_mysql(connection, news_data)` (lines
132–170).  `now` is `datetime.now().strftime('%Y-%m-%d %H:%M:%S')` at
the moment of the call.  The first component is what the caller sees:
`.ok db'` a normal return leaving the committed store at `db'` (the
function never produces `.error`: its `try` catches every exception,
logs and rolls back). -/
def save_news_to_mysql (cerr ierr cmerr : Option String) (db : List NewsRow)
    (nd : ArticleRecord) (now : String) :
    Except String (List NewsRow) × List String :=
  match cerr with
  | some e => (.ok db, [saveFailMsg e])
  | none =>
    if newsCount db nd.original_url > 0 then (.ok db, [dupMsg nd.title])
    else
      match ierr with
      | some e => (.ok db, [saveFailMsg e])
      | none =>
        match cmerr with
        | some e => (.ok db, [saveFailMsg e])
        | none => (.ok (db ++ [mkRow nd now]), [saveOkMsg nd.title])

/-- Hinnant's `days_from_civil`: days since 1970-01-01 of a proleptic
Gregorian date, the day arithmetic behind MySQL's `DATE_SUB`. -/
def daysFromCivil (y m d : Int) : Int :=
  let y1 := if m ≤ 2 then y - 1 else y
  let era := y1.fdiv 400
  let yoe := y1 - era * 400
  let mp := (m + 9) % 12
  let doy := (153 * mp + 2).fdiv 5 + d - 1
  let doe := yoe * 365 + yoe.fdiv 4 - yoe.fdiv 100 + doy
  era * 146097 + doe - 719468

/-- Hinnant's `civil_from_days`, inverse of `daysFromCivil`. -/
def civilFromDays (z0 : Int) : Int × Int × Int :=
  let z := z0 + 719468
  let era := z.fdiv 146097
  let doe := z - era * 146097
  let yoe := (doe - doe.fdiv 1460 + doe.fdiv 36524 - doe.fdiv 146096).fdiv 365
  let y := yoe + era * 400
  let doy := doe - (365 * yoe + yoe.fdiv 4 - yoe.fdiv 100)
  let mp := (5 * doy + 2).fdiv 153
  let d := doy - (153 * mp + 2).fdiv 5 + 1
  let m := if mp < 10 then mp + 3 else mp - 9
  (if m ≤ 2 then y + 1 else y, m, d)

/-- Calendar subtraction of whole days at fixed time of day:
`DATE_SUB(now, INTERVAL n DAY)`. -/
def dateSubDays (t : DTime) (n : Nat) : DTime :=
  let c := civilFromDays (daysFromCivil t.year t.month t.day - n)
  ⟨c.1.toNat, c.2.1.toNat, c.2.2.toNat, t.hour, t.minute, t.sec⟩

/-- Log line of `clean_old_news` on success. -/
def cleanOkMsg (days : Nat) : String :=
  toString days ++ "일 이전에 모은 뉴스를 정리했습니다"

/-- Log line of `clean_old_news`'s `except` handler. -/
def cleanFailMsg (e : String) : String :=
  "오래된 뉴스를 정리하는데 오류가 있었습니다: " ++ e

/-- Model of `clean_old_news(connection, days_to_keep)` (lines
172–185): delete every row whose `publish_time` is earlier than
`DATE_SUB(NOW(), INTERVAL days DAY)` and commit; `derr = some e` makes
the `DELETE` raise, which is caught, logged and rolled back.  `now` is
the database's `NOW()`. -/
def clean_old_news (derr : Option String) (db : List NewsRow) (now : DTime)
    (days : Nat) : List NewsRow × List String :=
  match derr with
  | some e => (db, [cleanFailMsg e])
  | none =>
    (db.filter
      (fun r => !charListLt r.publish_time.data (dtToString (dateSubDays now days)).data),
     [cleanOkMsg days])

/-!
## URL collection: `get_news_urls`
-/

/-- The site's base origin (line 30 of the source). -/
def BASE_URL : String := "https://www.yna.co.kr"

/-- Lines 64–66: prepend `BASE_URL` unless the href starts with
`http`. -/
def resolveUrl (u : String) : String :=
  if pyStartsWith u "http" then u else BASE_URL ++ u

/-- `set.add` followed at the end by `list(...)`: insertion-ordered
collection without duplicates. -/
def dedupAdd (acc : List String) (u : String) : List String :=
  if u ∈ acc then acc else acc ++ [u]

/-- The loop of lines 63–67 over the selected anchors' hrefs. -/
def collectUrls (hrefs : List String) : List String :=
  hrefs.foldl (fun acc h => dedupAdd acc (resolveUrl h)) []

/-- Log line of `get_news_urls` on success. -/
def urlsOkMsg (n : Nat) : String :=
  toString n ++ "개의 고유한 뉴스 URL을 저장했습니다"

/-- Log line of `get_news_urls`'s `except` handler. -/
def urlsFailMsg (e : String) : String :=
  "뉴스 URL을 모으는데 실패했습니다: " ++ e

/-- Model of `get_news_urls()` (lines 54–74): `fetch` is the outcome of
the listing-page GET reduced to the hrefs of the anchors matched by
`div.list-type038 ul li a[href*='/view/']`; an `Except.error` is any
transport or parse exception. -/
def get_news_urls (fetch : Except String (List String)) :
    List String × List String :=
  match fetch with
  | .error e => ([], [urlsFailMsg e])
  | .ok hrefs =>
    (collectUrls hrefs, [urlsOkMsg (collectUrls hrefs).length])

/-!
## The orchestrator cycle

`main` (lines 187–223) is an infinite `while True` loop; one iteration
is modelled as the sequence of externally visible actions it performs.
`connOk` is whether `create_connection()` returned a connection,
`throttles` how many per-article 1-second delays ran before the cycle
body finished or an unclassified error escaped it, and `bodyErr` an
unclassified error escaping the cycle body (those raised inside the
per-URL `try` or inside `get_news_urls`, `save_news_to_mysql`,
`clean_old_news` are caught lower down and never reach the outer
handler).
-/

/-- An externally visible action of one `main` loop iteration. -/
inductive MainAction where
  | logInfo (m : String)
  | logError (m : String)
  | sleepSec (n : Nat)
  | closeConn
deriving DecidableEq

/-- Log line when `create_connection` returns `None`. -/
def connFailMsg : String := "MySQL 연결 실패. 1분 후 재시도합니다."

/-- Log line of the outer `except` handler of `main`. -/
def cycleErrMsg (e : String) : String := "크롤링 프로세스 오류: " ++ e

/-- Log line before the inter-cycle sleep. -/
def cycleDoneMsg : String := "크롤링 작업이 완료되었습니다. 1시간 후에 다시 시작합니다."

/-- Log line at the top of each iteration. -/
def cycleStartMsg : String := "뉴스 크롤러를 시작합니다 부르릉..."

/-- One iteration of the `while True` loop of `main`: connection
failure logs and sleeps 60 seconds, then `continue` (the `finally`
block finds `connection` falsy and does not close); an unclassified
error escaping the body skips the 3600-second sleep, is logged, and the
`finally` block closes the connection; a normal iteration sleeps 3600
seconds and closes. -/
def mainCycle (connOk : Bool) (throttles : Nat) (bodyErr : Option String) :
    List MainAction :=
  if connOk = false then
    [.logInfo cycleStartMsg, .logError connFailMsg, .sleepSec 60]
  else
    match bodyErr with
    | some e =>
      [MainAction.logInfo cycleStartMsg] ++
        (List.replicate throttles (MainAction.sleepSec 1)) ++
        [.logError (cycleErrMsg e), .closeConn]
    | none =>
      [MainAction.logInfo cycleStartMsg] ++
        (List.replicate throttles (MainAction.sleepSec 1)) ++
        [.logInfo cycleDoneMsg, .sleepSec 3600, .closeConn]

/-!
## Helper lemmas
-/

theorem isDigitB_bounds {c : Char} (h : isDigitB c = true) :
    48 ≤ c.toNat ∧ c.toNat ≤ 57 := by
  simpa [isDigitB] using h

theorem digitVal_le_nine {c : Char} (h : isDigitB c = true) : digitVal c ≤ 9 := by
  have := isDigitB_bounds h
  unfold digitVal
  omega

theorem digitChar_digitVal {c : Char} (h : isDigitB c = true) :
    digitChar (digitVal c) = c := by
  have hb := isDigitB_bounds h
  unfold digitChar digitVal
  rw [Nat.add_sub_cancel' hb.1]
  exact Char.ofNat_toNat c

theorem digit_beq_space {c : Char} (h : isDigitB c = true) : (c == ' ') = false := by
  have hb := isDigitB_bounds h
  rw [beq_eq_false_iff_ne]
  intro e
  subst e
  exact absurd h (by decide)

theorem digit_not_pySpace {c : Char} (h : isDigitB c = true) : isPySpace c = false := by
  cases hc : isPySpace c with
  | false => rfl
  | true =>
    exfalso
    simp only [isPySpace, Bool.or_eq_true, beq_iff_eq] at hc
    rcases hc with ((((e | e) | e) | e) | e) | e <;> (subst e; exact absurd h (by decide))

theorem string_append_data (s t : String) : s ++ t = String.mk (s.data ++ t.data) := by
  cases s
  cases t
  rfl

theorem string_mk_ne_empty {l : List Char} (h : l ≠ []) : String.mk l ≠ "" := by
  intro e
  exact h (congrArg String.data e)

theorem take4D_cons {a b c d : Char} {rest : List Char} (ha : isDigitB a = true)
    (hb : isDigitB b = true) (hc : isDigitB c = true) (hd : isDigitB d = true) :
    take4D (a :: b :: c :: d :: rest) =
      some (1000 * digitVal a + 100 * digitVal b + 10 * digitVal c + digitVal d, rest) := by
  simp [take4D, ha, hb, hc, hd]

theorem expectChar_cons (c : Char) (rest : List Char) :
    expectChar c (c :: rest) = some rest := by
  simp [expectChar]

theorem parseMM_two {a b : Char} {rest : List Char} (ha : isDigitB a = true)
    (hb : isDigitB b = true) (h1 : 1 ≤ 10 * digitVal a + digitVal b)
    (h2 : 10 * digitVal a + digitVal b ≤ 12) :
    parseMM (a :: b :: rest) = some (10 * digitVal a + digitVal b, rest) := by
  simp [parseMM, ha, hb, h1, h2]

theorem parseDD_two {a b : Char} {rest : List Char} (ha : isDigitB a = true)
    (hb : isDigitB b = true) (h1 : 1 ≤ 10 * digitVal a + digitVal b)
    (h2 : 10 * digitVal a + digitVal b ≤ 31) :
    parseDD (a :: b :: rest) = some (10 * digitVal a + digitVal b, rest) := by
  simp [parseDD, digit_beq_space ha, ha, hb, h1, h2]

theorem parseWs_digit {a : Char} {t : List Char} (ha : isDigitB a = true) :
    parseWs (' ' :: a :: t) = some (a :: t) := by
  have hsp : isPySpace ' ' = true := by decide
  simp [parseWs, List.dropWhile, hsp, digit_not_pySpace ha]

theorem parseHH_two {a b : Char} {rest : List Char} (ha : isDigitB a = true)
    (hb : isDigitB b = true) (h2 : 10 * digitVal a + digitVal b ≤ 23) :
    parseHH (a :: b :: rest) = some (10 * digitVal a + digitVal b, rest) := by
  simp [parseHH, ha, hb, h2]

theorem parseMinEnd_two {a b : Char} (ha : isDigitB a = true)
    (hb : isDigitB b = true) (h5 : digitVal a ≤ 5) :
    parseMinEnd [a, b] = some (10 * digitVal a + digitVal b) := by
  simp [parseMinEnd, ha, hb, h5]

theorem daysInMonth_le_31 (y m : Nat) : daysInMonth y m ≤ 31 := by
  unfold daysInMonth
  split
  · split <;> omega
  · split <;> omega

theorem pad2L_digits {a b : Char} (ha : isDigitB a = true) (hb : isDigitB b = true) :
    pad2L (10 * digitVal a + digitVal b) = [a, b] := by
  have na := digitVal_le_nine ha
  have nb := digitVal_le_nine hb
  unfold pad2L
  have e1 : (10 * digitVal a + digitVal b) / 10 % 10 = digitVal a := by omega
  have e2 : (10 * digitVal a + digitVal b) % 10 = digitVal b := by omega
  rw [e1, e2, digitChar_digitVal ha, digitChar_digitVal hb]

theorem pad4L_digits {a b c d : Char} (ha : isDigitB a = true)
    (hb : isDigitB b = true) (hc : isDigitB c = true) (hd : isDigitB d = true) :
    pad4L (1000 * digitVal a + 100 * digitVal b + 10 * digitVal c + digitVal d) =
      [a, b, c, d] := by
  have na := digitVal_le_nine ha
  have nb := digitVal_le_nine hb
  have nc := digitVal_le_nine hc
  have nd := digitVal_le_nine hd
  unfold pad4L
  have e1 : (1000 * digitVal a + 100 * digitVal b + 10 * digitVal c + digitVal d)
      / 1000 % 10 = digitVal a := by omega
  have e2 : (1000 * digitVal a + 100 * digitVal b + 10 * digitVal c + digitVal d)
      / 100 % 10 = digitVal b := by omega
  have e3 : (1000 * digitVal a + 100 * digitVal b + 10 * digitVal c + digitVal d)
      / 10 % 10 = digitVal c := by omega
  have e4 : (1000 * digitVal a + 100 * digitVal b + 10 * digitVal c + digitVal d)
      % 10 = digitVal d := by omega
  rw [e1, e2, e3, e4, digitChar_digitVal ha, digitChar_digitVal hb,
    digitChar_digitVal hc, digitChar_digitVal hd]

theorem pad2L_zero : pad2L 0 = ['0', '0'] := by decide

/-- Round trip behind claim C3: a publish-time text in the exact
zero-padded pattern is accepted by the `strptime` model and printed
back by `strftime` as itself with seconds `:00` appended. -/
theorem strptime_exact {s : String} (h : specExactPattern s = true) :
    ∃ dt : DTime, strptimeYmdHM s = some dt ∧ dtToString dt = s ++ ":00" := by
  unfold specExactPattern at h
  split at h
  next y1 y2 y3 y4 s1 m1 m2 s2 d1 d2 s3 h1 h2 s4 n1 n2 heq =>
    simp only [Bool.and_eq_true, beq_iff_eq, decide_eq_true_eq, and_assoc] at h
    obtain ⟨hy1, hy2, hy3, hy4, hs1, hm1, hm2, hs2, hd1, hd2, hs3, hh1, hh2, hs4,
      hn1, hn2, hv1, hv2, hv3, hv4, hv5, hv6, hv7⟩ := h
    subst hs1 hs2 hs3 hs4
    have hn5 : digitVal n1 ≤ 5 := by
      have := digitVal_le_nine hn2
      omega
    refine ⟨⟨1000 * digitVal y1 + 100 * digitVal y2 + 10 * digitVal y3 + digitVal y4,
      10 * digitVal m1 + digitVal m2, 10 * digitVal d1 + digitVal d2,
      10 * digitVal h1 + digitVal h2, 10 * digitVal n1 + digitVal n2, 0⟩, ?_, ?_⟩
    · have hd31 : 10 * digitVal d1 + digitVal d2 ≤ 31 :=
        le_trans hv5 (daysInMonth_le_31 _ _)
      unfold strptimeYmdHM
      rw [heq, take4D_cons hy1 hy2 hy3 hy4]
      simp only [expectChar_cons, parseMM_two hm1 hm2 hv2 hv3,
        parseDD_two hd1 hd2 hv4 hd31, parseWs_digit hh1, parseHH_two hh1 hh2 hv6,
        parseMinEnd_two hn1 hn2 hn5]
      simp [hv1, hv4, hv5]
    · rw [string_append_data]
      unfold dtToString
      apply congrArg String.mk
      rw [heq]
      unfold dtToStringL
      simp only [pad4L_digits hy1 hy2 hy3 hy4, pad2L_digits hm1 hm2,
        pad2L_digits hd1 hd2, pad2L_digits hh1 hh2, pad2L_digits hn1 hn2, pad2L_zero]
      rfl
  next =>
    exact absurd h (by simp)

theorem dtToString_ne_empty (t : DTime) : dtToString t ≠ "" := by
  apply string_mk_ne_empty
  intro e
  have := congrArg List.length e
  simp [dtToStringL, pad4L, pad2L] at this

/-- Success path of `parse_news`: title element present, paragraphs
present with non-empty joined content, publish-time text accepted. -/
theorem parse_news_ok {uuid url t0 d0 : String} {paras : List String} {dt : DTime}
    (hne : paras ≠ []) (hc : buildContent paras ≠ "")
    (hdt : strptimeYmdHM (processDate d0) = some dt) :
    parse_news uuid url (.ok ⟨some t0, paras, some d0⟩) =
      (some ⟨uuid, pyStrip t0, buildContent paras, url, dtToString dt⟩,
       [parseOkMsg (pyStrip t0)]) := by
  unfold parse_news
  simp [List.isEmpty_iff, hne, hc, hdt]

/-- Date-failure path of `parse_news`: everything before the timestamp
succeeds but the `strptime` model rejects the processed text. -/
theorem parse_news_bad_date {uuid url t0 d0 : String} {paras : List String}
    (hne : paras ≠ []) (hc : buildContent paras ≠ "")
    (hdt : strptimeYmdHM (processDate d0) = none) :
    parse_news uuid url (.ok ⟨some t0, paras, some d0⟩) =
      (none, [dateErrMsg (processDate d0),
              parseFailMsg url (strptimeErr (processDate d0))]) := by
  unfold parse_news
  simp [List.isEmpty_iff, hne, hc, hdt]

/-- Shape of any record produced by `parse_news`: identifiers are the
inputs, content is the non-empty paragraph join, the timestamp is a
printed `strftime` value (in particular non-empty), and the title is
exactly the stripped text of the title element — with no check that it
is non-empty. -/
theorem parse_news_some_shape {uuid url : String} {fetch : Except String Page}
    {r : ArticleRecord} (h : (parse_news uuid url fetch).1 = some r) :
    r.id = uuid ∧ r.original_url = url ∧ r.content ≠ "" ∧ r.publish_time ≠ "" ∧
      ∃ page t0, fetch = Except.ok page ∧ page.titleElem = some t0 ∧
        r.title = pyStrip t0 ∧ r.content = buildContent page.contentParas := by
  cases fetch with
  | error e => simp [parse_news] at h
  | ok page =>
    obtain ⟨te, ps, ue⟩ := page
    cases te with
    | none => simp [parse_news] at h
    | some t0 =>
      by_cases hpse : ps = []
      · simp [parse_news, hpse] at h
      · by_cases hce : buildContent ps = ""
        · simp [parse_news, List.isEmpty_iff, hpse, hce] at h
        · cases ue with
          | none => simp [parse_news, List.isEmpty_iff, hpse, hce] at h
          | some d0 =>
            cases hdt : strptimeYmdHM (processDate d0) with
            | none => rw [parse_news_bad_date hpse hce hdt] at h; simp at h
            | some dt =>
              rw [parse_news_ok hpse hce hdt] at h
              simp only [Option.some.injEq] at h
              subst h
              exact ⟨rfl, rfl, hce, dtToString_ne_empty dt,
                ⟨some t0, ps, some d0⟩, t0, rfl, rfl, rfl, rfl⟩

theorem buildContent_all_blank {ps : List String} (h : ∀ p ∈ ps, pyStrip p = "") :
    buildContent ps = "" := by
  unfold buildContent
  have he : (ps.map pyStrip).filter (fun s => s ≠ "") = [] := by
    rw [List.filter_eq_nil_iff]
    intro a ha
    obtain ⟨p, hp, rfl⟩ := List.mem_map.mp ha
    simp [h p hp]
  rw [he]
  rfl

/-- Empty joined content makes `parse_news` fail whatever the rest of
the page holds. -/
theorem parse_news_empty_content {uuid url : String} {page : Page}
    (hbc : buildContent page.contentParas = "") :
    (parse_news uuid url (.ok page)).1 = none := by
  obtain ⟨te, ps, ue⟩ := page
  cases te with
  | none => simp [parse_news]
  | some t0 =>
    by_cases hpse : ps = []
    · simp [parse_news, hpse]
    · simp only at hbc
      simp [parse_news, List.isEmpty_iff, hpse, hbc]

theorem newsCount_append (db1 db2 : List NewsRow) (u : String) :
    newsCount (db1 ++ db2) u = newsCount db1 u + newsCount db2 u := by
  unfold newsCount
  rw [List.filter_append, List.length_append]

theorem newsCount_mkRow (nd : ArticleRecord) (now : String) :
    newsCount [mkRow nd now] nd.original_url = 1 := by
  simp [newsCount, mkRow]

theorem listStarts_append (p t : List Char) : listStarts p (p ++ t) = true := by
  induction p with
  | nil => rfl
  | cons c cs ih => simp [listStarts, ih]

theorem pyStartsWith_base (u : String) :
    pyStartsWith (BASE_URL ++ u) "http" = true := by
  unfold pyStartsWith
  have h1 : (BASE_URL ++ u).data = BASE_URL.data ++ u.data :=
    congrArg String.data (string_append_data _ _)
  have h2 : BASE_URL.data = "http".data ++ "s://www.yna.co.kr".data := rfl
  rw [h1, h2, List.append_assoc]
  exact listStarts_append _ _

theorem resolveUrl_starts (u : String) :
    pyStartsWith (resolveUrl u) "http" = true := by
  unfold resolveUrl
  split
  next h => exact h
  next => exact pyStartsWith_base u

theorem collect_aux_nodup (hrefs : List String) (acc : List String)
    (h : acc.Nodup) :
    (hrefs.foldl (fun a s => dedupAdd a (resolveUrl s)) acc).Nodup := by
  induction hrefs generalizing acc with
  | nil => exact h
  | cons x xs ih =>
    apply ih
    show (dedupAdd acc (resolveUrl x)).Nodup
    unfold dedupAdd
    split
    next => exact h
    next hx => simp [List.nodup_append, h, hx]

theorem collect_aux_mem (hrefs : List String) (acc : List String) (u : String) :
    u ∈ hrefs.foldl (fun a s => dedupAdd a (resolveUrl s)) acc ↔
      u ∈ acc ∨ ∃ s, s ∈ hrefs ∧ resolveUrl s = u := by
  induction hrefs generalizing acc with
  | nil => simp
  | cons x xs ih =>
    simp only [List.foldl_cons]
    rw [ih]
    unfold dedupAdd
    by_cases hx : resolveUrl x ∈ acc
    · rw [if_pos hx]
      constructor
      · rintro (hu | ⟨s, hs, he⟩)
        · exact Or.inl hu
        · exact Or.inr ⟨s, List.mem_cons_of_mem _ hs, he⟩
      · rintro (hu | ⟨s, hs, he⟩)
        · exact Or.inl hu
        · rcases List.mem_cons.mp hs with rfl | hs2
          · exact Or.inl (he ▸ hx)
          · exact Or.inr ⟨s, hs2, he⟩
    · rw [if_neg hx]
      constructor
      · rintro (hu | ⟨s, hs, he⟩)
        · rcases List.mem_append.mp hu with h1 | h1
          · exact Or.inl h1
          · exact Or.inr ⟨x, List.mem_cons_self x xs, (List.mem_singleton.mp h1).symm⟩
        · exact Or.inr ⟨s, List.mem_cons_of_mem _ hs, he⟩
      · rintro (hu | ⟨s, hs, he⟩)
        · exact Or.inl (List.mem_append.mpr (Or.inl hu))
        · rcases List.mem_cons.mp hs with rfl | hs2
          · exact Or.inl (List.mem_append.mpr (Or.inr (by simp [he])))
          · exact Or.inr ⟨s, hs2, he⟩

theorem collectUrls_nodup (hrefs : List String) : (collectUrls hrefs).Nodup :=
  collect_aux_nodup hrefs [] List.nodup_nil

theorem collectUrls_mem (hrefs : List String) (u : String) :
    u ∈ collectUrls hrefs ↔ ∃ s, s ∈ hrefs ∧ resolveUrl s = u := by
  unfold collectUrls
  rw [collect_aux_mem]
  simp

/-- Shape-only version of the original claim-C2 check that every
parsed record also has a non-empty title: refuted below. -/
def recordFullyValid (r : ArticleRecord) : Prop :=
  r.title ≠ "" ∧ r.content ≠ "" ∧ r.original_url ≠ "" ∧ r.publish_time ≠ ""

/-!
## Claim theorems
-/

/-- C1: calling insert twice with records sharing the same
`original_url`, on a store not yet holding that URL, stores exactly one
row — the first call inserts all fields plus the freshly computed crawl
time and commits, and the second call's existence check finds the URL
and the call is a logged no-op that leaves the store unchanged. -/
theorem c1_insert_idempotent (db : List NewsRow) (r1 r2 : ArticleRecord)
    (t1 t2 : String) (hdb : newsCount db r1.original_url = 0)
    (hurl : r2.original_url = r1.original_url) :
    save_news_to_mysql none none none db r1 t1 =
      (.ok (db ++ [mkRow r1 t1]), [saveOkMsg r1.title]) ∧
    save_news_to_mysql none none none (db ++ [mkRow r1 t1]) r2 t2 =
      (.ok (db ++ [mkRow r1 t1]), [dupMsg r2.title]) ∧
    newsCount (db ++ [mkRow r1 t1]) r1.original_url = 1 := by
  have h1 : newsCount (db ++ [mkRow r1 t1]) r1.original_url = 1 := by
    rw [newsCount_append, hdb, newsCount_mkRow]
  refine ⟨?_, ?_, h1⟩
  · unfold save_news_to_mysql
    simp [hdb]
  · unfold save_news_to_mysql
    rw [hurl]
    simp [h1]

/-- Witness for C1 at a concrete store and records. -/
theorem c1_insert_idempotent_witness :
    newsCount [] (⟨"u1", "t1", "c1", "https://www.yna.co.kr/view/AKR1",
        "2024-01-15 09:30:00"⟩ : ArticleRecord).original_url = 0 ∧
    (⟨"u2", "t2", "c2", "https://www.yna.co.kr/view/AKR1",
        "2024-01-15 09:30:00"⟩ : ArticleRecord).original_url =
      (⟨"u1", "t1", "c1", "https://www.yna.co.kr/view/AKR1",
        "2024-01-15 09:30:00"⟩ : ArticleRecord).original_url ∧
    newsCount ([] ++ [mkRow ⟨"u1", "t1", "c1", "https://www.yna.co.kr/view/AKR1",
        "2024-01-15 09:30:00"⟩ "2024-06-01 00:00:00"])
      (⟨"u1", "t1", "c1", "https://www.yna.co.kr/view/AKR1",
        "2024-01-15 09:30:00"⟩ : ArticleRecord).original_url = 1 :=
  ⟨rfl, rfl,
    (c1_insert_idempotent [] ⟨"u1", "t1", "c1", "https://www.yna.co.kr/view/AKR1",
        "2024-01-15 09:30:00"⟩
      ⟨"u2", "t2", "c2", "https://www.yna.co.kr/view/AKR1", "2024-01-15 09:30:00"⟩
      "2024-06-01 00:00:00" "2024-06-01 01:00:00" rfl rfl).2.2⟩

/-- C2 counterexample: a page whose title element exists but carries
whitespace-only text produces a record whose `title` is the empty
string — a partial record the claim says is never returned. -/
theorem c2_empty_title_counterexample :
    (parse_news "u1" "https://www.yna.co.kr/view/AKR1"
        (.ok ⟨some " ", ["본문입니다"], some "송고시간 2024-01-15 09:30"⟩)).1 =
      some ⟨"u1", "", "본문입니다", "https://www.yna.co.kr/view/AKR1",
        "2024-01-15 09:30:00"⟩ ∧
    ¬recordFullyValid ⟨"u1", "", "본문입니다", "https://www.yna.co.kr/view/AKR1",
        "2024-01-15 09:30:00"⟩ :=
  ⟨by decide, fun h => h.1 rfl⟩

/-- C2 (amended): `parse_news` returns either `none` or a record whose
`id` and `original_url` are the call's inputs, whose `content` and
`publish_time` are non-empty, and whose `title` is the title element's
text trimmed of surrounding whitespace — which may be empty when that
text is whitespace-only, since the code checks only that the element
exists, not that its text is non-empty. -/
theorem c2_record_shape (uuid url : String) (fetch : Except String Page)
    (r : ArticleRecord) (h : (parse_news uuid url fetch).1 = some r) :
    r.id = uuid ∧ r.original_url = url ∧ r.content ≠ "" ∧ r.publish_time ≠ "" ∧
      ∃ page t0, fetch = Except.ok page ∧ page.titleElem = some t0 ∧
        r.title = pyStrip t0 := by
  obtain ⟨h1, h2, h3, h4, page, t0, h5, h6, h7, _⟩ := parse_news_some_shape h
  exact ⟨h1, h2, h3, h4, page, t0, h5, h6, h7⟩

/-- Witness for C2 at a concrete successfully parsed page. -/
theorem c2_record_shape_witness :
    (⟨"u1", "제목", "본문", "https://www.yna.co.kr/view/AKR3",
        "2024-01-15 09:30:00"⟩ : ArticleRecord).id = "u1" ∧
    (⟨"u1", "제목", "본문", "https://www.yna.co.kr/view/AKR3",
        "2024-01-15 09:30:00"⟩ : ArticleRecord).original_url =
      "https://www.yna.co.kr/view/AKR3" ∧
    (⟨"u1", "제목", "본문", "https://www.yna.co.kr/view/AKR3",
        "2024-01-15 09:30:00"⟩ : ArticleRecord).content ≠ "" ∧
    (⟨"u1", "제목", "본문", "https://www.yna.co.kr/view/AKR3",
        "2024-01-15 09:30:00"⟩ : ArticleRecord).publish_time ≠ "" ∧
    ∃ page t0,
      (Except.ok ⟨some " 제목 ", ["본문"], some "2024-01-15 09:30"⟩ :
          Except String Page) = Except.ok page ∧
      page.titleElem = some t0 ∧
      (⟨"u1", "제목", "본문", "https://www.yna.co.kr/view/AKR3",
          "2024-01-15 09:30:00"⟩ : ArticleRecord).title = pyStrip t0 :=
  c2_record_shape "u1" "https://www.yna.co.kr/view/AKR3"
    (.ok ⟨some " 제목 ", ["본문"], some "2024-01-15 09:30"⟩)
    ⟨"u1", "제목", "본문", "https://www.yna.co.kr/view/AKR3", "2024-01-15 09:30:00"⟩
    (by decide)

/-- C3 counterexample: the processed publish-time text
`2024-1-15 09:30` does not match the exact pattern `YYYY-MM-DD HH:MM`,
yet `parse_news` succeeds on it (with the normalized zero-padded
timestamp) instead of returning "not parseable" — `strptime` accepts
un-zero-padded fields. -/
theorem c3_lenient_counterexample :
    specExactPattern "2024-1-15 09:30" = false ∧
    processDate "송고시간 2024-1-15 09:30" = "2024-1-15 09:30" ∧
    (parse_news "u1" "https://www.yna.co.kr/view/AKR4"
        (.ok ⟨some "제목", ["본문"], some "송고시간 2024-1-15 09:30"⟩)).1 =
      some ⟨"u1", "제목", "본문", "https://www.yna.co.kr/view/AKR4",
        "2024-01-15 09:30:00"⟩ :=
  ⟨by decide, by decide, by decide⟩

/-- C3 (amended): for a page whose title and content extract
successfully, if the processed publish-time text matches the exact
zero-padded pattern `YYYY-MM-DD HH:MM` the returned record's
`publish_time` is that text with `:00` appended; and whenever the
`strptime` model rejects the text (its lenient pattern also accepts
1–2 digit month, day, hour and minute and a space-padded day,
normalizing them, so rejection is strictly rarer than leaving the exact
pattern), `parse_news` returns "not parseable" and logs the offending
processed text. -/
theorem c3_publish_time (uuid url t0 d0 : String) (paras : List String)
    (hne : paras ≠ []) (hc : buildContent paras ≠ "") :
    (specExactPattern (processDate d0) = true →
      ∃ r, (parse_news uuid url (.ok ⟨some t0, paras, some d0⟩)).1 = some r ∧
        r.publish_time = processDate d0 ++ ":00") ∧
    (strptimeYmdHM (processDate d0) = none →
      parse_news uuid url (.ok ⟨some t0, paras, some d0⟩) =
        (none, [dateErrMsg (processDate d0),
                parseFailMsg url (strptimeErr (processDate d0))])) := by
  constructor
  · intro hex
    obtain ⟨dt, hdt, hpr⟩ := strptime_exact hex
    refine ⟨⟨uuid, pyStrip t0, buildContent paras, url, dtToString dt⟩, ?_, hpr⟩
    rw [parse_news_ok hne hc hdt]
  · intro hnone
    exact parse_news_bad_date hne hc hnone

/-- Witness for C3 at one exactly-formatted text and one rejected
text. -/
theorem c3_publish_time_witness :
    (∃ r, (parse_news "u1" "https://www.yna.co.kr/view/AKR5"
        (.ok ⟨some "제목", ["본문"], some "송고시간 2024-01-15 09:30"⟩)).1 = some r ∧
      r.publish_time = processDate "송고시간 2024-01-15 09:30" ++ ":00") ∧
    parse_news "u1" "https://www.yna.co.kr/view/AKR5"
        (.ok ⟨some "제목", ["본문"], some "2024-13-01 09:30"⟩) =
      (none, [dateErrMsg (processDate "2024-13-01 09:30"),
              parseFailMsg "https://www.yna.co.kr/view/AKR5"
                (strptimeErr (processDate "2024-13-01 09:30"))]) :=
  ⟨(c3_publish_time "u1" "https://www.yna.co.kr/view/AKR5" "제목"
      "송고시간 2024-01-15 09:30" ["본문"] (by decide) (by decide)).1 (by decide),
   (c3_publish_time "u1" "https://www.yna.co.kr/view/AKR5" "제목"
      "2024-13-01 09:30" ["본문"] (by decide) (by decide)).2 (by decide)⟩

/-- C4: when body paragraph elements exist, any record `parse_news`
returns has as `content` the paragraphs' texts trimmed, the empty ones
discarded and the rest joined with single spaces; and if every
paragraph is whitespace-only, `parse_news` returns "not parseable". -/
theorem c4_content_join (uuid url : String) (page : Page)
    (hne : page.contentParas ≠ []) :
    (∀ r, (parse_news uuid url (.ok page)).1 = some r →
      r.content = joinSpace ((page.contentParas.map pyStrip).filter
        (fun s => s ≠ ""))) ∧
    ((∀ p ∈ page.contentParas, pyStrip p = "") →
      (parse_news uuid url (.ok page)).1 = none) := by
  constructor
  · intro r h
    obtain ⟨_, _, _, _, pg, t0, hpg, _, _, hcontent⟩ := parse_news_some_shape h
    have hpe : page = pg := by injection hpg
    rw [hpe]
    exact hcontent
  · intro hall
    exact parse_news_empty_content (buildContent_all_blank hall)

/-- Witness for C4 at a mixed paragraph list and at an all-blank one. -/
theorem c4_content_join_witness :
    (⟨"u1", "제목", "금리 인상", "https://www.yna.co.kr/view/AKR6",
        "2024-01-15 09:30:00"⟩ : ArticleRecord).content =
      joinSpace ((([" 금리 ", "  ", "인상 "].map pyStrip).filter
        (fun s => s ≠ ""))) ∧
    (parse_news "u1" "https://www.yna.co.kr/view/AKR6"
        (.ok ⟨some "제목", ["  ", " "], some "2024-01-15 09:30"⟩)).1 = none := by
  constructor
  · have h2 : (parse_news "u1" "https://www.yna.co.kr/view/AKR6"
        (.ok ⟨some "제목", [" 금리 ", "  ", "인상 "], some "2024-01-15 09:30"⟩)).1 =
        some ⟨"u1", "제목", "금리 인상", "https://www.yna.co.kr/view/AKR6",
          "2024-01-15 09:30:00"⟩ := by decide
    exact (c4_content_join "u1" "https://www.yna.co.kr/view/AKR6"
      ⟨some "제목", [" 금리 ", "  ", "인상 "], some "2024-01-15 09:30"⟩
      (by decide)).1 _ h2
  · exact (c4_content_join "u1" "https://www.yna.co.kr/view/AKR6"
      ⟨some "제목", ["  ", " "], some "2024-01-15 09:30"⟩ (by decide)).2
      (by decide)

/-- C5 counterexample: with the existence-check query raising, the call
returns normally (`Except.ok`, store unchanged, failure only logged) —
the error does not propagate to the caller as the claim states. -/
theorem c5_check_failure_counterexample :
    save_news_to_mysql (some "connection lost") none none []
        ⟨"u1", "t", "c", "https://www.yna.co.kr/view/AKR7",
          "2024-01-15 09:30:00"⟩ "2024-06-01 00:00:00" =
      (Except.ok [], [saveFailMsg "connection lost"]) := rfl

/-- C5 (amended): a failed existence check never leads to an insert
attempt and is not silently treated as "the record does not exist": the
exception is caught inside the store operation, which logs it, rolls
back, and returns normally with the store unchanged — it does not
propagate to the caller. -/
theorem c5_check_failure_caught (e : String) (i c : Option String)
    (db : List NewsRow) (nd : ArticleRecord) (now : String) :
    save_news_to_mysql (some e) i c db nd now =
      (Except.ok db, [saveFailMsg e]) := rfl

/-- C6: prune with retention 30 keeps exactly the rows whose
`publish_time` does not precede `now` minus 30 days — the deleted rows
are exactly those before the `DATE_SUB` cutoff, the kept rows are
untouched and keep their order — and a failing `DELETE` is rolled back,
leaving the store unchanged. -/
theorem c6_prune_frame (db : List NewsRow) (now : DTime) (e : String) :
    clean_old_news (some e) db now 30 = (db, [cleanFailMsg e]) ∧
    ((clean_old_news none db now 30).1).Sublist db ∧
    (∀ r, r ∈ (clean_old_news none db now 30).1 ↔
      r ∈ db ∧ charListLt r.publish_time.data
        (dtToString (dateSubDays now 30)).data = false) := by
  refine ⟨rfl, List.filter_sublist db, ?_⟩
  intro r
  show r ∈ db.filter _ ↔ _
  rw [List.mem_filter]
  simp

/-- C7: URL collection on a fetched listing page returns a
duplicate-free list of absolute URLs: an href starting with `http`
passes through unchanged, any other href is prefixed with the base
origin, and a repeated href contributes one element. -/
theorem c7_collect_urls (hrefs : List String) :
    (get_news_urls (.ok hrefs)).1.Nodup ∧
    (∀ u, u ∈ (get_news_urls (.ok hrefs)).1 ↔
      ∃ s, s ∈ hrefs ∧ resolveUrl s = u) ∧
    (∀ u, u ∈ (get_news_urls (.ok hrefs)).1 → pyStartsWith u "http" = true) ∧
    (∀ s, s ∈ hrefs → pyStartsWith s "http" = true →
      s ∈ (get_news_urls (.ok hrefs)).1) ∧
    (∀ s, s ∈ hrefs → pyStartsWith s "http" = false →
      BASE_URL ++ s ∈ (get_news_urls (.ok hrefs)).1) := by
  refine ⟨collectUrls_nodup hrefs, collectUrls_mem hrefs, ?_, ?_, ?_⟩
  · intro u hu
    obtain ⟨s, _, rfl⟩ := (collectUrls_mem hrefs u).mp hu
    exact resolveUrl_starts s
  · intro s hs habs
    refine (collectUrls_mem hrefs s).mpr ⟨s, hs, ?_⟩
    simp [resolveUrl, habs]
  · intro s hs hrel
    refine (collectUrls_mem hrefs (BASE_URL ++ s)).mpr ⟨s, hs, ?_⟩
    simp [resolveUrl, hrel]

/-- Witness for C7 on a listing with a repeated relative href and an
absolute href. -/
theorem c7_collect_urls_witness :
    (get_news_urls (.ok ["/view/AKR1", "https://n.example/view/AKR2",
        "/view/AKR1"])).1.Nodup ∧
    "https://n.example/view/AKR2" ∈ (get_news_urls (.ok ["/view/AKR1",
        "https://n.example/view/AKR2", "/view/AKR1"])).1 ∧
    BASE_URL ++ "/view/AKR1" ∈ (get_news_urls (.ok ["/view/AKR1",
        "https://n.example/view/AKR2", "/view/AKR1"])).1 :=
  ⟨(c7_collect_urls ["/view/AKR1", "https://n.example/view/AKR2",
      "/view/AKR1"]).1,
   (c7_collect_urls ["/view/AKR1", "https://n.example/view/AKR2",
      "/view/AKR1"]).2.2.2.1 "https://n.example/view/AKR2" (by decide) (by decide),
   (c7_collect_urls ["/view/AKR1", "https://n.example/view/AKR2",
      "/view/AKR1"]).2.2.2.2 "/view/AKR1" (by decide) (by decide)⟩

/-- C8: a transport or parse failure while collecting listing-page URLs
is logged and yields the empty collection instead of an exception. -/
theorem c8_collect_failure (e : String) :
    get_news_urls (.error e) = ([], [urlsFailMsg e]) := rfl

/-- C9: an error raised during the insert step is caught and rolled
back: the store the caller sees is exactly the store before the call
(no partially inserted row), the call returns normally, and the failure
is only logged. -/
theorem c9_insert_failure_rollback (e : String) (db : List NewsRow)
    (nd : ArticleRecord) (now : String)
    (hnew : newsCount db nd.original_url = 0) :
    save_news_to_mysql none (some e) none db nd now =
      (Except.ok db, [saveFailMsg e]) := by
  unfold save_news_to_mysql
  simp [hnew]

/-- Witness for C9 at a concrete record and empty store. -/
theorem c9_insert_failure_rollback_witness :
    newsCount [] (⟨"u1", "t", "c", "https://www.yna.co.kr/view/AKR8",
        "2024-01-15 09:30:00"⟩ : ArticleRecord).original_url = 0 ∧
    save_news_to_mysql none (some "deadlock") none []
        ⟨"u1", "t", "c", "https://www.yna.co.kr/view/AKR8", "2024-01-15 09:30:00"⟩
        "2024-06-01 00:00:00" =
      (Except.ok [], [saveFailMsg "deadlock"]) :=
  ⟨rfl, c9_insert_failure_rollback "deadlock" []
    ⟨"u1", "t", "c", "https://www.yna.co.kr/view/AKR8", "2024-01-15 09:30:00"⟩
    "2024-06-01 00:00:00" rfl⟩

/-- C10: when an unclassified error escapes the cycle body, the
3600-second inter-cycle sleep does not occur and the iteration ends
with closing the connection (the next cycle starts immediately after);
the only sleeps in such an iteration are the already-spent 1-second
per-article throttles, and the only delayed retry path is the 60-second
wait of a failed connection attempt. -/
theorem c10_error_skips_sleep (k : Nat) (e : String) (b : Option String)
    (n : Nat) :
    MainAction.sleepSec 3600 ∉ mainCycle true k (some e) ∧
    (mainCycle true k (some e)).getLast? = some MainAction.closeConn ∧
    (MainAction.sleepSec n ∈ mainCycle true k (some e) → n = 1) ∧
    (MainAction.sleepSec n ∈ mainCycle false k b → n = 60) := by
  refine ⟨?_, ?_, ?_, ?_⟩
  · simp [mainCycle, List.mem_replicate]
  · have hsplit : mainCycle true k (some e) =
        ([MainAction.logInfo cycleStartMsg] ++
          List.replicate k (MainAction.sleepSec 1) ++
          [MainAction.logError (cycleErrMsg e)]) ++ [MainAction.closeConn] := by
      simp [mainCycle]
    rw [hsplit, List.getLast?_concat]
  · intro h
    simp [mainCycle, List.mem_replicate] at h
    omega
  · intro h
    simp [mainCycle] at h
    exact h

/-- Witness for C10 with one throttle spent and a failed connection. -/
theorem c10_error_skips_sleep_witness :
    MainAction.sleepSec 3600 ∉ mainCycle true 1 (some "oops") ∧
    (1 : Nat) = 1 ∧ (60 : Nat) = 60 :=
  ⟨(c10_error_skips_sleep 1 "oops" none 1).1,
   (c10_error_skips_sleep 1 "oops" none 1).2.2.1 (by decide),
   (c10_error_skips_sleep 1 "oops" none 60).2.2.2 (by decide)⟩
